import Mathlib

/-!
Verification of the KYC onboarding pipeline core against its specification.

The definitions below are a shallow embedding of the repository's Python
source (`src/models.py`, `src/utilities/risk_scoring.py`,
`src/utilities/investigation_planner.py`, `src/utilities/review_intelligence.py`,
`src/generators/recommendation_engine.py`, `src/pipeline.py`).
Python ints are modelled as `Int`, Python floats that carry exact decimal
data (match scores, percentages) as `Rat`, optional values as `Option`,
dicts with a fixed key set as structures, and `dict[str, int]` maps as
insertion-ordered association lists (Python dicts iterate in insertion
order, which matters for `max(d, key=d.get)` tie-breaking).
Pydantic model fields that no verified claim touches (report strings,
search-query logs, timestamps, follow-up action strings) are omitted from
the corresponding structures; every omission is noted at the structure.
Leading underscores of private Python helpers are dropped from names.
-/

/-! ## Enumerations (src/models.py) -/

/-- `RiskLevel` enum (`models.py`). -/
inductive RiskLevel where
  | LOW
  | MEDIUM
  | HIGH
  | CRITICAL
deriving DecidableEq, Repr

/-- The `.value` string of a `RiskLevel` member. -/
def riskLevelValue : RiskLevel → String
  | .LOW => "LOW"
  | .MEDIUM => "MEDIUM"
  | .HIGH => "HIGH"
  | .CRITICAL => "CRITICAL"

/-- `DispositionStatus` enum (`models.py`). -/
inductive DispositionStatus where
  | CLEAR
  | POTENTIAL_MATCH
  | CONFIRMED_MATCH
  | FALSE_POSITIVE
  | PENDING_REVIEW
deriving DecidableEq, Repr

/-- `PEPLevel` enum (`models.py`); `HeadOfIntlOrg` embeds the member
spelled `HIO` in the source. -/
inductive PEPLevel where
  | NOT_PEP
  | FOREIGN_PEP
  | DOMESTIC_PEP
  | HeadOfIntlOrg
  | PEP_FAMILY
  | PEP_ASSOCIATE
deriving DecidableEq, Repr

/-- `OnboardingDecision` enum (`models.py`). -/
inductive OnboardingDecision where
  | APPROVE
  | CONDITIONAL
  | ESCALATE
  | DECLINE
deriving DecidableEq, Repr

/-- `AdverseMediaLevel` enum (`models.py`). -/
inductive AdverseMediaLevel where
  | CLEAR
  | LOW_CONCERN
  | MATERIAL_CONCERN
  | HIGH_RISK
deriving DecidableEq, Repr

/-- The `.value` string of an `AdverseMediaLevel` member. -/
def adverseMediaLevelValue : AdverseMediaLevel → String
  | .CLEAR => "CLEAR"
  | .LOW_CONCERN => "LOW_CONCERN"
  | .MATERIAL_CONCERN => "MATERIAL_CONCERN"
  | .HIGH_RISK => "HIGH_RISK"

/-- `ClientType` enum (`models.py`). -/
inductive ClientType where
  | INDIVIDUAL
  | BUSINESS
deriving DecidableEq, Repr

/-- `SeverityLevel` enum (`models.py`). -/
inductive SeverityLevel where
  | CRITICAL
  | HIGH
  | MEDIUM
  | ADVISORY
deriving DecidableEq, Repr

/-! ## Risk assessment data model (src/models.py) -/

/-- `RiskFactor` pydantic model (`models.py`): one scored rule hit. -/
structure RiskFactor where
  factor : String
  points : Int
  category : String
  source : String
deriving DecidableEq, Repr

/-- One entry of `RiskAssessment.score_history` (a `dict` with keys
`stage`, `score`, `level` in the source). -/
structure ScoreHistoryEntry where
  stage : String
  score : Int
  level : String
deriving DecidableEq, Repr

/-- `RiskAssessment` pydantic model (`models.py`). -/
structure RiskAssessment where
  total_score : Int := 0
  risk_level : RiskLevel := .LOW
  risk_factors : List RiskFactor := []
  is_preliminary : Bool := true
  score_history : List ScoreHistoryEntry := []
deriving DecidableEq, Repr

/-- Python's `sum(f.points for f in factors)`. -/
def sumPoints : List RiskFactor → Int
  | [] => 0
  | f :: fs => f.points + sumPoints fs

/-! ## Risk scoring engine (src/utilities/risk_scoring.py) -/

/-- `_score_to_risk_level` (`risk_scoring.py` lines 23-32). -/
def score_to_risk_level (score : Int) : RiskLevel :=
  if score ≤ 15 then .LOW
  else if score ≤ 35 then .MEDIUM
  else if score ≤ 60 then .HIGH
  else .CRITICAL

/-- Python `max(ubo_scores.values())` over a non-empty insertion-ordered
map; the `0` for `[]` is never reached behind the non-emptiness guard. -/
def maxUboScore : List (String × Int) → Int
  | [] => 0
  | p :: ps => (ps.map Prod.snd).foldl max p.2

/-- Python `max(ubo_scores, key=ubo_scores.get)`: the first key (in
insertion order) whose value attains the maximum. -/
def maxUboName (l : List (String × Int)) : String :=
  ((l.find? (fun p => p.2 == maxUboScore l)).map Prod.fst).getD ""

/-- `revise_risk_score` (`risk_scoring.py` lines 227-267).
`ubo_scores=None` and `ubo_scores={}` behave identically in the source
(`if ubo_scores:` is false for both), so both are modelled as `[]`;
likewise `synthesis_factors=None` as `[]`.  Python `int(max_ubo_score * 0.5)`
truncates toward zero; behind the `max_ubo_score > 0` guard this equals
integer division by 2. -/
def revise_risk_score (preliminary : RiskAssessment)
    (ubo_scores : List (String × Int)) (synthesis_factors : List RiskFactor) :
    RiskAssessment :=
  let uboPart : List RiskFactor :=
    if ubo_scores.isEmpty then []
    else
      let m := maxUboScore ubo_scores
      if m > 0 then
        [{ factor := "UBO cascade: " ++ maxUboName ubo_scores ++
             " (score " ++ toString m ++ " x 0.5)",
           points := m / 2, category := "ubo_cascade", source := "synthesis" }]
      else []
  let factors := preliminary.risk_factors ++ uboPart ++ synthesis_factors
  let total := sumPoints factors
  let level := score_to_risk_level total
  let history := preliminary.score_history ++
    [{ stage := "synthesis_revision", score := total, level := riskLevelValue level }]
  { total_score := total
    risk_level := level
    risk_factors := factors
    is_preliminary := false
    score_history := history }

/-! ## Helper lemmas for the scoring engine -/

lemma sumPoints_append (a b : List RiskFactor) :
    sumPoints (a ++ b) = sumPoints a + sumPoints b := by
  induction a with
  | nil => simp [sumPoints]
  | cons f fs ih => simp [sumPoints, ih]; ring

lemma sumPoints_nonneg (l : List RiskFactor) (h : ∀ f ∈ l, 0 ≤ f.points) :
    0 ≤ sumPoints l := by
  induction l with
  | nil => simp [sumPoints]
  | cons f fs ih =>
    simp only [sumPoints]
    have hf := h f (List.mem_cons_self f fs)
    have hfs := ih (fun g hg => h g (List.mem_cons_of_mem f hg))
    linarith

/-! ## Claim C3 -/

/-- C3: for every score, `risk_level` is the fixed step function of
`total_score` with breakpoints ≤15 LOW, 16-35 MEDIUM, 36-60 HIGH,
≥61 CRITICAL, including the six sample points; and every assessment
produced by the revision entry point carries
`risk_level = score_to_risk_level total_score`. -/
theorem score_to_risk_level_step_function :
    (∀ s : Int,
      (score_to_risk_level s = .LOW ↔ s ≤ 15) ∧
      (score_to_risk_level s = .MEDIUM ↔ 16 ≤ s ∧ s ≤ 35) ∧
      (score_to_risk_level s = .HIGH ↔ 36 ≤ s ∧ s ≤ 60) ∧
      (score_to_risk_level s = .CRITICAL ↔ 61 ≤ s)) ∧
    score_to_risk_level 15 = .LOW ∧
    score_to_risk_level 16 = .MEDIUM ∧
    score_to_risk_level 35 = .MEDIUM ∧
    score_to_risk_level 36 = .HIGH ∧
    score_to_risk_level 60 = .HIGH ∧
    score_to_risk_level 61 = .CRITICAL ∧
    (∀ pre ubo extra, (revise_risk_score pre ubo extra).risk_level =
      score_to_risk_level (revise_risk_score pre ubo extra).total_score) := by
  refine ⟨fun s => ?_, by decide, by decide, by decide, by decide, by decide, by decide,
    fun pre ubo extra => rfl⟩
  unfold score_to_risk_level
  split_ifs with h1 h2 h3 <;> refine ⟨?_, ?_, ?_, ?_⟩ <;> simp <;> omega

/-! ## Claim C4 -/

/-- C4: revising a well-formed preliminary assessment with related-party
scores `{"X": 30}` and no extra factors adds exactly
`floor(30 * 0.5) = 15` points, clears `is_preliminary`, and appends one
`score_history` entry. -/
theorem revise_single_ubo_thirty (pre : RiskAssessment)
    (hwf : pre.total_score = sumPoints pre.risk_factors) :
    (revise_risk_score pre [("X", 30)] []).total_score = pre.total_score + 15 ∧
    (revise_risk_score pre [("X", 30)] []).is_preliminary = false ∧
    (revise_risk_score pre [("X", 30)] []).score_history.length =
      pre.score_history.length + 1 := by
  unfold revise_risk_score
  refine ⟨?_, rfl, by simp⟩
  simp only [List.isEmpty_cons]
  norm_num [maxUboScore, sumPoints_append, sumPoints, hwf]

/-- Witness for C4 at a concrete preliminary assessment. -/
theorem revise_single_ubo_thirty_witness :
    (revise_risk_score
        { total_score := 20, risk_level := .MEDIUM,
          risk_factors := [{ factor := "Domestic PEP (self-declared)", points := 20,
                             category := "pep", source := "client_intake" }],
          is_preliminary := true,
          score_history := [{ stage := "intake", score := 20, level := "MEDIUM" }] }
        [("X", 30)] []).total_score = 35 :=
  (revise_single_ubo_thirty
    { total_score := 20, risk_level := .MEDIUM,
      risk_factors := [{ factor := "Domestic PEP (self-declared)", points := 20,
                         category := "pep", source := "client_intake" }],
      is_preliminary := true,
      score_history := [{ stage := "intake", score := 20, level := "MEDIUM" }] }
    (by decide)).1

/-! ## Claim C5 -/

/-- Concrete well-formed preliminary assessment used to refute C5 as stated. -/
def preNoFactors : RiskAssessment :=
  { total_score := 0, risk_level := .LOW, risk_factors := [],
    is_preliminary := true,
    score_history := [{ stage := "intake", score := 0, level := "LOW" }] }

/-- C5 as stated is false: with nonnegative (here: empty) related-party
scores but an extra factor carrying negative points, the revised total
drops below the preliminary total. -/
theorem revise_monotonic_counterexample :
    (∀ p ∈ ([] : List (String × Int)), 0 ≤ p.2) ∧
    (revise_risk_score preNoFactors []
        [{ factor := "Synthesis adjustment", points := -1,
           category := "synthesis", source := "synthesis" }]).total_score <
      preNoFactors.total_score := by
  refine ⟨fun p hp => absurd hp (List.not_mem_nil p), ?_⟩
  decide

/-- C5 amended: revision is monotonic for every well-formed preliminary
assessment (`total_score` equals the sum of its factors' points), every
map of nonnegative related-party scores, and every list of extra factors
whose points are all nonnegative. -/
theorem revise_monotonic (pre : RiskAssessment)
    (ubo : List (String × Int)) (extra : List RiskFactor)
    (hwf : pre.total_score = sumPoints pre.risk_factors)
    (_hubo : ∀ p ∈ ubo, 0 ≤ p.2)
    (hextra : ∀ f ∈ extra, 0 ≤ f.points) :
    pre.total_score ≤ (revise_risk_score pre ubo extra).total_score := by
  have hx : 0 ≤ sumPoints extra := sumPoints_nonneg extra hextra
  unfold revise_risk_score
  simp only [sumPoints_append, hwf]
  split
  · simp only [sumPoints]
    linarith
  · split
    · rename_i hm
      simp only [sumPoints]
      have : 0 ≤ maxUboScore ubo / 2 := by positivity
      linarith
    · simp only [sumPoints]
      linarith

/-- Witness for the amended C5 at a concrete input. -/
theorem revise_monotonic_witness :
    preNoFactors.total_score ≤
      (revise_risk_score preNoFactors [("X", 10)]
        [{ factor := "Extra", points := 2, category := "c", source := "s" }]).total_score :=
  revise_monotonic preNoFactors [("X", 10)]
    [{ factor := "Extra", points := 2, category := "c", source := "s" }]
    (by decide) (by decide) (by decide)

/-! ## Investigation result data model (src/models.py)

Only the fields the pipeline's decision logic and the review-intelligence
rules read are embedded; report strings, query logs, evidence-record
lists and utility result dicts that no claim touches are omitted. -/

/-- The `.value` string of a `PEPLevel` member. -/
def pepLevelValue : PEPLevel → String
  | .NOT_PEP => "NOT_PEP"
  | .FOREIGN_PEP => "FOREIGN_PEP"
  | .DOMESTIC_PEP => "DOMESTIC_PEP"
  | .HeadOfIntlOrg => "HIO"
  | .PEP_FAMILY => "PEP_FAMILY"
  | .PEP_ASSOCIATE => "PEP_ASSOCIATE"

/-- One entry of `SanctionsResult.matches` (`models.py`: loose dicts
`{list_name, matched_name, score, details}`).  `score := none` covers both
a missing `score` key (Python then reads the default `0`, which never
exceeds `0.85`) and a non-numeric value (rejected by the `isinstance`
check); both behave identically in every rule that reads scores. -/
structure SanctionMatch where
  score : Option Rat := none
deriving DecidableEq, Repr

/-- `SanctionsResult` pydantic model (`models.py`). -/
structure SanctionsResult where
  match_entries : List SanctionMatch := []
  disposition : DispositionStatus := .CLEAR
deriving DecidableEq, Repr

/-- `PEPClassification` pydantic model (`models.py`). -/
structure PEPClassification where
  detected_level : PEPLevel := .NOT_PEP
deriving DecidableEq, Repr

/-- `AdverseMediaResult` pydantic model (`models.py`). -/
structure AdverseMediaResult where
  overall_level : AdverseMediaLevel := .CLEAR
  categories : List String := []
deriving DecidableEq, Repr

/-- `EntityVerification` pydantic model (`models.py`). -/
structure EntityVerification where
  discrepancies : List String := []
deriving DecidableEq, Repr

/-- `InvestigationResults` pydantic model (`models.py`): one optional
typed result per dispatched agent.  `jurisdiction_risk`, the utility
dict fields and `ubo_screening` are read by no verified claim and are
omitted. -/
structure InvestigationResults where
  individual_sanctions : Option SanctionsResult := none
  pep_classification : Option PEPClassification := none
  individual_adverse_media : Option AdverseMediaResult := none
  entity_verification : Option EntityVerification := none
  entity_sanctions : Option SanctionsResult := none
  business_adverse_media : Option AdverseMediaResult := none
deriving DecidableEq, Repr

/-- `InvestigationPlan` pydantic model (`models.py`). -/
structure InvestigationPlan where
  client_type : ClientType
  client_id : String
  agents_to_run : List String := []
  utilities_to_run : List String := []
  ubo_cascade_needed : Bool := false
  ubo_names : List String := []
  applicable_regulations : List String := []
  preliminary_risk : RiskAssessment := {}
deriving DecidableEq, Repr

/-- One entry of `KYCSynthesisOutput.contradictions` (loose dicts in the
source; the embedded fields are the keys review intelligence reads, with
the source's `dict.get` fallback defaults). -/
structure SynthContradiction where
  finding_a : String := "Unknown"
  finding_b : String := "Unknown"
  agent_a : String := "Synthesis"
  agent_b : String := "Synthesis"
  resolution : String := "Review both findings"
deriving DecidableEq, Repr

/-- `KYCSynthesisOutput` pydantic model (`models.py`).  `evidence_graph`,
`key_findings`, `risk_elevations` and `decision_points` are read by no
verified claim and are omitted. -/
structure KYCSynthesisOutput where
  revised_risk_assessment : Option RiskAssessment := none
  contradictions : List SynthContradiction := []
  recommended_decision : OnboardingDecision := .ESCALATE
  decision_reasoning : String := ""
  conditions : List String := []
  items_requiring_review : List String := []
  senior_management_approval_needed : Bool := false
deriving DecidableEq, Repr

/-! ## String helpers (Python `in` on strings) -/

/-- Whether the second character list is a prefix of the first. -/
def charsStartWith : List Char → List Char → Bool
  | _, [] => true
  | [], _ :: _ => false
  | a :: as, b :: bs => a == b && charsStartWith as bs

/-- Whether the second character list occurs inside the first. -/
def charsContain : List Char → List Char → Bool
  | [], pat => pat.isEmpty
  | a :: as, pat => charsStartWith (a :: as) pat || charsContain as pat

/-- Python's substring test `pat in s`. -/
def strContains (s pat : String) : Bool :=
  charsContain s.data pat.data

/-! ## Recommendation engine (src/generators/recommendation_engine.py)

`recommend_decision` in the source returns a `(decision, reasoning,
conditions)` triple; `pipeline.finalize` reads only the decision, so the
embedding models the decision component.  The `flags` list is embedded
with the exact strings the source appends, because the HIGH-risk branch
inspects them with `any("sanctions" in f.lower() for f in flags)`. -/

/-- The hard-block check of `recommend_decision` (lines 28-34): some
sanctions result in the investigation has disposition `CONFIRMED_MATCH`. -/
def sanctionsConfirmed (inv : InvestigationResults) : Bool :=
  (inv.individual_sanctions.any fun s => s.disposition == .CONFIRMED_MATCH) ||
  (inv.entity_sanctions.any fun s => s.disposition == .CONFIRMED_MATCH)

/-- The `flags` list built by `recommend_decision` (lines 36-52), in the
source's append order: potential sanctions matches (individual then
entity), detected PEP level, then material adverse media (individual then
business).  `edd_requirements` (lines 54-58) only appends to `conditions`,
never to `flags`, and cannot influence the decision. -/
def buildFlags (inv : InvestigationResults) : List String :=
  (match inv.individual_sanctions with
   | some s =>
     if s.disposition == .POTENTIAL_MATCH then
       ["Potential sanctions match requires resolution"] else []
   | none => []) ++
  (match inv.entity_sanctions with
   | some s =>
     if s.disposition == .POTENTIAL_MATCH then
       ["Potential sanctions match requires resolution"] else []
   | none => []) ++
  (match inv.pep_classification with
   | some pep =>
     if pepLevelValue pep.detected_level ≠ "NOT_PEP" then
       ["PEP detected: " ++ pepLevelValue pep.detected_level] else []
   | none => []) ++
  (match inv.individual_adverse_media with
   | some adv =>
     if adverseMediaLevelValue adv.overall_level = "MATERIAL_CONCERN" ∨
        adverseMediaLevelValue adv.overall_level = "HIGH_RISK" then
       ["Adverse media: " ++ adverseMediaLevelValue adv.overall_level] else []
   | none => []) ++
  (match inv.business_adverse_media with
   | some adv =>
     if adverseMediaLevelValue adv.overall_level = "MATERIAL_CONCERN" ∨
        adverseMediaLevelValue adv.overall_level = "HIGH_RISK" then
       ["Adverse media: " ++ adverseMediaLevelValue adv.overall_level] else []
   | none => [])

/-- `if investigation:` guard lifted over the optional argument. -/
def hardBlockConfirmed : Option InvestigationResults → Bool
  | some inv => sanctionsConfirmed inv
  | none => false

/-- Flags of the optional investigation (`[]` when `investigation=None`). -/
def investigationFlags : Option InvestigationResults → List String
  | some inv => buildFlags inv
  | none => []

/-- `recommend_decision` (`recommendation_engine.py` lines 12-111),
decision component. -/
def recommend_decision (risk_assessment : RiskAssessment)
    (investigation : Option InvestigationResults) : OnboardingDecision :=
  if hardBlockConfirmed investigation then .DECLINE
  else
    let flags := investigationFlags investigation
    match risk_assessment.risk_level with
    | .CRITICAL => if !flags.isEmpty then .DECLINE else .ESCALATE
    | .HIGH =>
      if flags.any (fun f => strContains f.toLower "sanctions") then .ESCALATE
      else .CONDITIONAL
    | .MEDIUM => if !flags.isEmpty then .CONDITIONAL else .APPROVE
    | .LOW => if !flags.isEmpty then .CONDITIONAL else .APPROVE

/-! ## Finalize stage (src/pipeline.py lines 199-272) -/

/-- The final-decision computation of `KYCPipeline.finalize`
(`pipeline.py` lines 239-248): start from the synthesis recommendation
(`None` when no synthesis output was checkpointed); when both a plan and
a synthesis output are present, run the deterministic recommendation
engine on `synthesis.revised_risk_assessment or plan.preliminary_risk`
and override with `DECLINE` when it concludes `DECLINE`. -/
def finalizeDecision (plan : Option InvestigationPlan)
    (synthesis : Option KYCSynthesisOutput)
    (investigation : InvestigationResults) : Option OnboardingDecision :=
  let final_decision := synthesis.map (·.recommended_decision)
  match plan, synthesis with
  | some p, some s =>
    let risk_assessment := s.revised_risk_assessment.getD p.preliminary_risk
    if recommend_decision risk_assessment (some investigation) == .DECLINE then
      some .DECLINE
    else final_decision
  | _, _ => final_decision

/-! ## Synthesis stage fallback (src/pipeline.py lines 532-600) -/

/-- The outcome of `KYCPipeline._run_synthesis` as a function of the
synthesis collaborator's result (`Except` models the `try/except`): on
success the revised risk assessment is attached to the output; on any
raised error the stage returns the conservative default output of lines
595-600 instead of propagating the error. -/
def run_synthesis_output (collab : Except String KYCSynthesisOutput)
    (revised_risk : RiskAssessment) : KYCSynthesisOutput :=
  match collab with
  | .ok s => { s with revised_risk_assessment := some revised_risk }
  | .error e =>
    { recommended_decision := .ESCALATE
      decision_reasoning := "Synthesis failed: " ++ e ++ " — escalating for manual review"
      items_requiring_review := ["All findings require manual review"]
      senior_management_approval_needed := true }

/-! ## Claim C1 -/

/-- C1: whenever finalize runs with both a plan and a synthesis output
and the investigation's individual or entity sanctions result has
disposition `CONFIRMED_MATCH`, the final decision is `DECLINE`, whatever
the synthesis recommended. -/
theorem finalize_confirmed_sanctions_decline
    (p : InvestigationPlan) (s : KYCSynthesisOutput) (inv : InvestigationResults)
    (h : sanctionsConfirmed inv = true) :
    finalizeDecision (some p) (some s) inv = some .DECLINE := by
  unfold finalizeDecision recommend_decision hardBlockConfirmed
  simp [h]

/-- Concrete plan used by the C1 witness. -/
def planBasic : InvestigationPlan :=
  { client_type := .INDIVIDUAL, client_id := "jane_doe",
    preliminary_risk := { total_score := 0, risk_level := .LOW } }

/-- Concrete synthesis output recommending `APPROVE`, used by the C1 witness. -/
def synApprove : KYCSynthesisOutput :=
  { recommended_decision := .APPROVE }

/-- Concrete investigation with a confirmed individual sanctions match. -/
def invConfirmed : InvestigationResults :=
  { individual_sanctions := some { match_entries := [], disposition := .CONFIRMED_MATCH } }

/-- Witness for C1: a confirmed sanctions match overrides an `APPROVE`
synthesis recommendation. -/
theorem finalize_confirmed_sanctions_decline_witness :
    sanctionsConfirmed invConfirmed = true ∧
    finalizeDecision (some planBasic) (some synApprove) invConfirmed =
      some .DECLINE :=
  ⟨by decide, finalize_confirmed_sanctions_decline planBasic synApprove invConfirmed (by decide)⟩

/-! ## Claim C2 -/

/-- Concrete critical-risk assessment used to refute C2 as stated. -/
def raCritical : RiskAssessment :=
  { total_score := 70, risk_level := .CRITICAL }

/-- Concrete investigation with only a potential (not confirmed)
sanctions match. -/
def invPotential : InvestigationResults :=
  { individual_sanctions := some { match_entries := [], disposition := .POTENTIAL_MATCH } }

/-- C2 as stated is false: on a CRITICAL risk assessment with a
potential sanctions match, the engine returns `DECLINE` although no
sanctions result has disposition `CONFIRMED_MATCH`. -/
theorem recommend_decision_sole_trigger_counterexample :
    recommend_decision raCritical (some invPotential) = .DECLINE ∧
    sanctionsConfirmed invPotential = false :=
  ⟨rfl, rfl⟩

/-- C2 amended: the engine returns `DECLINE` exactly when some sanctions
result has disposition `CONFIRMED_MATCH`, or the risk level is CRITICAL
and at least one flag (potential sanctions match, detected PEP, or
material adverse media) was raised. -/
theorem recommend_decision_decline_iff (ra : RiskAssessment)
    (investigation : Option InvestigationResults) :
    recommend_decision ra investigation = .DECLINE ↔
      (hardBlockConfirmed investigation = true ∨
       (ra.risk_level = .CRITICAL ∧ investigationFlags investigation ≠ [])) := by
  unfold recommend_decision
  cases hc : hardBlockConfirmed investigation
  · cases hl : ra.risk_level <;>
      simp [hl, List.isEmpty_iff] <;>
      split <;> simp_all
  · simp

/-! ## Claim C9 -/

/-- C9: whenever the synthesis collaborator raises an error, the stage
still returns an output recommending `ESCALATE` with the
senior-management-approval flag set and a non-empty
items-requiring-review list. -/
theorem run_synthesis_error_escalates (e : String) (r : RiskAssessment) :
    (run_synthesis_output (.error e) r).recommended_decision = .ESCALATE ∧
    (run_synthesis_output (.error e) r).senior_management_approval_needed = true ∧
    (run_synthesis_output (.error e) r).items_requiring_review ≠ [] := by
  refine ⟨rfl, rfl, by simp [run_synthesis_output]⟩

/-! ## Claim C10 -/

/-- C10: when the checkpoint holds no synthesis output, finalize skips
the recommendation engine and the final decision is `None`, for every
plan and every deserialized investigation — including one whose
sanctions result has disposition `CONFIRMED_MATCH`. -/
theorem finalize_no_synthesis_none (plan : Option InvestigationPlan)
    (inv : InvestigationResults) :
    finalizeDecision plan none inv = none := by
  unfold finalizeDecision
  cases plan <;> rfl

/-! ## Client data model (src/models.py)

Only the fields `build_investigation_plan` branches on are embedded; the
intake fields consumed solely by the (abstracted) risk scorer, regulation
detector and client-id slug are omitted. -/

/-- `BeneficialOwner` pydantic model (`models.py`); of its fields the
planner reads only `full_name`. -/
structure BeneficialOwner where
  full_name : String
deriving DecidableEq, Repr

/-- `IndividualClient` pydantic model (`models.py`), planner-relevant
fields.  `client_type` is an ordinary pydantic field defaulting to
`INDIVIDUAL`. -/
structure IndividualClient where
  client_type : ClientType := .INDIVIDUAL
  full_name : String
deriving DecidableEq, Repr

/-- `BusinessClient` pydantic model (`models.py`), planner-relevant
fields.  `client_type` is an ordinary pydantic field defaulting to
`BUSINESS`. -/
structure BusinessClient where
  client_type : ClientType := .BUSINESS
  legal_name : String
  beneficial_owners : List BeneficialOwner := []
deriving DecidableEq, Repr

/-- A client record: one of the two pydantic variants. -/
inductive Client where
  | individual (c : IndividualClient)
  | business (c : BusinessClient)
deriving DecidableEq, Repr

/-- `client.client_type` read off either variant. -/
def clientTypeOf : Client → ClientType
  | .individual c => c.client_type
  | .business c => c.client_type

/-! ## Investigation planner (src/utilities/investigation_planner.py)

`build_investigation_plan` delegates the preliminary risk score to the
scoring engine, regulation detection to `detect_applicable_regulations`,
and the client-id slug to `_generate_client_id`; those three calls are
abstracted as function parameters (the first depends on the wall clock
through the entity-age rule, so it has no pure embedding), and every
theorem below quantifies over them. -/

/-- `build_investigation_plan` (`investigation_planner.py` lines 27-101). -/
def build_investigation_plan (riskOf : Client → RiskAssessment)
    (regsOf : Client → List String) (idOf : Client → String)
    (client : Client) : InvestigationPlan :=
  let client_type := clientTypeOf client
  let client_id := idOf client
  let risk := riskOf client
  let regulations := regsOf client
  match client_type with
  | .INDIVIDUAL =>
    { client_type := client_type, client_id := client_id,
      agents_to_run := ["IndividualSanctions", "PEPDetection",
                        "IndividualAdverseMedia", "JurisdictionRisk"],
      utilities_to_run := ["id_verification", "suitability",
                           "individual_fatca_crs", "edd_requirements",
                           "compliance_actions"],
      ubo_cascade_needed := false, ubo_names := [],
      applicable_regulations := regulations, preliminary_risk := risk }
  | .BUSINESS =>
    let cascade : Bool × List String :=
      match client with
      | .business b =>
        if b.beneficial_owners.isEmpty then (false, [])
        else (true, b.beneficial_owners.map (·.full_name))
      | .individual _ => (false, [])
    { client_type := client_type, client_id := client_id,
      agents_to_run := ["EntityVerification", "EntitySanctions",
                        "BusinessAdverseMedia", "JurisdictionRisk"],
      utilities_to_run := ["id_verification", "suitability",
                           "entity_fatca_crs", "business_risk_assessment",
                           "edd_requirements", "compliance_actions"],
      ubo_cascade_needed := cascade.1, ubo_names := cascade.2,
      applicable_regulations := regulations, preliminary_risk := risk }

/-! ## Claim C6 -/

/-- C6: for every Business client the plan's cascade flag is `False`
exactly when the client declares zero beneficial owners, and with one or
more owners the flag is `True` and the cascade subjects are exactly the
owners' full names — for every risk scorer, regulation detector and
id-slug function. -/
theorem business_cascade_iff_owners
    (riskOf : Client → RiskAssessment) (regsOf : Client → List String)
    (idOf : Client → String) (b : BusinessClient)
    (hct : b.client_type = .BUSINESS) :
    ((build_investigation_plan riskOf regsOf idOf (.business b)).ubo_cascade_needed
        = false ↔ b.beneficial_owners = []) ∧
    (b.beneficial_owners ≠ [] →
      (build_investigation_plan riskOf regsOf idOf (.business b)).ubo_cascade_needed
          = true ∧
      (build_investigation_plan riskOf regsOf idOf (.business b)).ubo_names
          = b.beneficial_owners.map (·.full_name)) := by
  unfold build_investigation_plan
  dsimp only [clientTypeOf]
  rw [hct]
  by_cases hbo : b.beneficial_owners = []
  · simp [hbo]
  · simp [List.isEmpty_iff, hbo]

/-- Concrete business client with one declared beneficial owner. -/
def acmeLtd : BusinessClient :=
  { legal_name := "Acme Ltd",
    beneficial_owners := [{ full_name := "Alice Smith" }] }

/-- Witness for C6: with one owner the cascade flag is set and the
subjects are exactly that owner's name. -/
theorem business_cascade_iff_owners_witness :
    (build_investigation_plan (fun _ => {}) (fun _ => []) (fun _ => "acme_ltd")
        (.business acmeLtd)).ubo_cascade_needed = true ∧
    (build_investigation_plan (fun _ => {}) (fun _ => []) (fun _ => "acme_ltd")
        (.business acmeLtd)).ubo_names = ["Alice Smith"] :=
  (business_cascade_iff_owners (fun _ => {}) (fun _ => []) (fun _ => "acme_ltd")
    acmeLtd rfl).2 (by decide)

/-! ## Evidence Store records (src/models.py, serialized form)

`_assess_confidence` reads the Evidence Store as a list of dicts; of each
record it reads only `er.get("evidence_level", "U")`.  A record missing
the key behaves exactly like one carrying `"U"` and is modelled by that
value; all other keys are unused by the verified claims and omitted. -/

/-- An Evidence Store entry as read by the confidence facet. -/
structure EvidenceRec where
  evidence_level : String := "U"
deriving DecidableEq, Repr

/-- The four counter keys of the `counts` dict in `_assess_confidence`. -/
inductive Lvl where
  | V
  | S
  | I
  | U
deriving DecidableEq, Repr

/-- Which counter a raw `evidence_level` string increments
(`_assess_confidence` lines 384-391: a level outside `{V,S,I,U}` counts
as `U`). -/
def levelTally (l : String) : Lvl :=
  if l = "V" then .V else if l = "S" then .S else if l = "I" then .I else .U

/-- How many store records increment a given counter. -/
def countLvl (evidence_store : List EvidenceRec) (l : Lvl) : Nat :=
  evidence_store.countP (fun er => levelTally er.evidence_level == l)

lemma countLvl_partition (es : List EvidenceRec) :
    countLvl es .V + countLvl es .S + countLvl es .I + countLvl es .U =
      es.length := by
  induction es with
  | nil => simp [countLvl]
  | cons er tl ih =>
    simp only [countLvl, List.countP_cons, List.length_cons] at *
    cases h : levelTally er.evidence_level <;> simp [h] <;> omega

/-! ## Decimal rounding (Python `round(x, 1)`)

Python rounds floats half-to-even.  The percentages are modelled in `Rat`
(exact arithmetic in place of IEEE doubles), with rounding to one decimal
digit as round-half-to-even; the verified claim only relies on the
universal bound `|round1 x - x| ≤ 1/20`, which holds for the float
version as well up to float representation error. -/

/-- Round to the nearest integer, ties to the even integer. -/
def roundHalfEven (x : Rat) : Int :=
  if x - ⌊x⌋ < 1/2 then ⌊x⌋
  else if 1/2 < x - ⌊x⌋ then ⌊x⌋ + 1
  else if ⌊x⌋ % 2 = 0 then ⌊x⌋ else ⌊x⌋ + 1

/-- Python `round(x, 1)`. -/
def round1 (x : Rat) : Rat :=
  (roundHalfEven (10 * x) : Rat) / 10

lemma abs_roundHalfEven_sub (x : Rat) : |(roundHalfEven x : Rat) - x| ≤ 1/2 := by
  have h1 : ((⌊x⌋ : Int) : Rat) ≤ x := Int.floor_le x
  have h2 : x < (⌊x⌋ : Int) + 1 := Int.lt_floor_add_one x
  unfold roundHalfEven
  split_ifs with ha hb hc <;> rw [abs_le] <;> constructor <;> push_cast at * <;> linarith

lemma abs_round1_sub (x : Rat) : |round1 x - x| ≤ 1/20 := by
  have h := abs_roundHalfEven_sub (10 * x)
  rw [abs_le] at h ⊢
  unfold round1
  constructor <;> linarith [h.1, h.2]

/-! ## Confidence degradation facet (src/utilities/review_intelligence.py) -/

/-- `ConfidenceDegradationAlert` pydantic model (`models.py` lines
439-447) with its field defaults; `follow_up_actions` (presentation
strings read by no verified claim) is omitted. -/
structure ConfidenceDegradationAlert where
  overall_confidence_grade : String := "F"
  verified_pct : Rat := 0
  sourced_pct : Rat := 0
  inferred_pct : Rat := 0
  unknown_pct : Rat := 0
  degraded : Bool := false
deriving DecidableEq, Repr

/-- `_assess_confidence` (`review_intelligence.py` lines 379-449): tally
the V/S/I/U distribution, compute percentages, grade by `strong_pct`.
An empty store returns the grade-F default alert of lines 393-398, whose
percentage fields keep their model defaults of `0.0`. -/
def assess_confidence (evidence_store : List EvidenceRec) :
    ConfidenceDegradationAlert :=
  let total := evidence_store.length
  if total = 0 then
    { overall_confidence_grade := "F", degraded := true }
  else
    let cV := countLvl evidence_store .V
    let cS := countLvl evidence_store .S
    let cI := countLvl evidence_store .I
    let cU := countLvl evidence_store .U
    let v_pct : Rat := (cV : Rat) / (total : Rat) * 100
    let s_pct : Rat := (cS : Rat) / (total : Rat) * 100
    let i_pct : Rat := (cI : Rat) / (total : Rat) * 100
    let u_pct : Rat := (cU : Rat) / (total : Rat) * 100
    let strong_pct : Rat := ((cV : Rat) + (cS : Rat)) / (total : Rat) * 100
    let grade :=
      if strong_pct ≥ 70 then "A"
      else if strong_pct ≥ 50 then "B"
      else if strong_pct ≥ 30 then "C"
      else if strong_pct ≥ 15 then "D"
      else "F"
    let degraded := grade == "C" || grade == "D" || grade == "F"
    { overall_confidence_grade := grade,
      verified_pct := round1 v_pct, sourced_pct := round1 s_pct,
      inferred_pct := round1 i_pct, unknown_pct := round1 u_pct,
      degraded := degraded }

/-! ## Claim C7 -/

/-- C7 as stated is false at the empty Evidence Store: there the alert
keeps the all-zero default percentages, whose sum is 0, far outside any
rounding tolerance of 100. -/
theorem confidence_pcts_sum_counterexample :
    (assess_confidence []).verified_pct + (assess_confidence []).sourced_pct +
        (assess_confidence []).inferred_pct + (assess_confidence []).unknown_pct
      = 0 ∧
    ¬(|(0 : Rat) - 100| ≤ 1/5) := by
  constructor
  · simp [assess_confidence]
  · rw [abs_le]
    norm_num

/-- C7 amended: for every non-empty Evidence Store, the four percentages
of the confidence-degradation alert sum to 100 within rounding (each of
the four values is rounded to one decimal, so the sum is within `4/20`
of 100). -/
theorem confidence_pcts_sum (es : List EvidenceRec) (h : es ≠ []) :
    |(assess_confidence es).verified_pct + (assess_confidence es).sourced_pct +
        (assess_confidence es).inferred_pct + (assess_confidence es).unknown_pct
      - 100| ≤ 1/5 := by
  have hlen : es.length ≠ 0 := fun hz => h (List.eq_nil_of_length_eq_zero hz)
  have hq : ((es.length : Nat) : Rat) ≠ 0 := by exact_mod_cast hlen
  unfold assess_confidence
  rw [if_neg hlen]
  dsimp only
  have hpart : ((countLvl es .V : Rat) + countLvl es .S + countLvl es .I +
      countLvl es .U) = (es.length : Rat) := by
    exact_mod_cast countLvl_partition es
  have hsum :
      (countLvl es .V : Rat) / (es.length : Rat) * 100 +
      (countLvl es .S : Rat) / (es.length : Rat) * 100 +
      (countLvl es .I : Rat) / (es.length : Rat) * 100 +
      (countLvl es .U : Rat) / (es.length : Rat) * 100 = 100 := by
    field_simp
    linarith [hpart]
  have b1 := abs_round1_sub ((countLvl es .V : Rat) / (es.length : Rat) * 100)
  have b2 := abs_round1_sub ((countLvl es .S : Rat) / (es.length : Rat) * 100)
  have b3 := abs_round1_sub ((countLvl es .I : Rat) / (es.length : Rat) * 100)
  have b4 := abs_round1_sub ((countLvl es .U : Rat) / (es.length : Rat) * 100)
  rw [abs_le] at b1 b2 b3 b4 ⊢
  constructor <;> linarith [b1.1, b1.2, b2.1, b2.2, b3.1, b3.2, b4.1, b4.2]

/-- Witness for the amended C7 on a two-record store. -/
theorem confidence_pcts_sum_witness :
    ([{ evidence_level := "V" }, { evidence_level := "I" }] : List EvidenceRec) ≠ [] ∧
    |(assess_confidence [{ evidence_level := "V" }, { evidence_level := "I" }]).verified_pct +
        (assess_confidence [{ evidence_level := "V" }, { evidence_level := "I" }]).sourced_pct +
        (assess_confidence [{ evidence_level := "V" }, { evidence_level := "I" }]).inferred_pct +
        (assess_confidence [{ evidence_level := "V" }, { evidence_level := "I" }]).unknown_pct
      - 100| ≤ 1/5 :=
  ⟨by decide, confidence_pcts_sum [{ evidence_level := "V" }, { evidence_level := "I" }] (by decide)⟩

/-! ## Contradiction surfacing facet (src/utilities/review_intelligence.py)

`_detect_contradictions` (lines 256-372) builds its output by appending,
in source order: synthesis-declared contradictions, then the four
deterministic cross-agent rules; `contradiction_id`s `CTR-001`, `CTR-002`,
... are assigned by the shared `_add` counter, modelled as a final
numbering pass over the concatenation.  The `evidence_store` parameter is
unused by this facet, exactly as in the source. -/

/-- `Contradiction` pydantic model (`models.py` lines 427-436). -/
structure Contradiction where
  contradiction_id : String
  finding_a : String
  finding_b : String
  agent_a : String
  agent_b : String
  evidence_ids : List String := []
  severity : SeverityLevel := .MEDIUM
  resolution_guidance : String := ""
deriving DecidableEq, Repr

/-- Python `f"{n:03d}"` for the positive counter values. -/
def pad3 (n : Nat) : String :=
  if n < 10 then "00" ++ toString n
  else if n < 100 then "0" ++ toString n
  else toString n

/-- The `_add` counter: assign `CTR-001`, `CTR-002`, ... in list order. -/
def numberContradictions (l : List Contradiction) : List Contradiction :=
  l.enum.map (fun p => { p.2 with contradiction_id := "CTR-" ++ pad3 (p.1 + 1) })

/-- Lines 294-301: the sanctions disposition the rules read — the
individual result when present, else the entity result. -/
def sanctionsDisposition (inv : InvestigationResults) : Option DispositionStatus :=
  match inv.individual_sanctions with
  | some s => some s.disposition
  | none => inv.entity_sanctions.map (·.disposition)

/-- Lines 294-301: the match list paired with `sanctionsDisposition`. -/
def sanctionsMatchList (inv : InvestigationResults) : List SanctionMatch :=
  match inv.individual_sanctions with
  | some s => s.match_entries
  | none => ((inv.entity_sanctions.map (·.match_entries)).getD [])

/-- The agent name the sanctions rules attach (`"IndividualSanctions" if
investigation.individual_sanctions else "EntitySanctions"`). -/
def sanctionsAgentName (inv : InvestigationResults) : String :=
  if inv.individual_sanctions.isSome then "IndividualSanctions"
  else "EntitySanctions"

/-- Lines 303-307: adverse-media categories — individual result when
present, else business. -/
def adverseCategories (inv : InvestigationResults) : List String :=
  match inv.individual_adverse_media with
  | some a => a.categories
  | none => ((inv.business_adverse_media.map (·.categories)).getD [])

/-- The agent name the media rules attach. -/
def mediaAgentName (inv : InvestigationResults) : String :=
  if inv.individual_adverse_media.isSome then "IndividualAdverseMedia"
  else "BusinessAdverseMedia"

/-- Lines 309-311: the detected PEP level, when a classification exists. -/
def pepLevelOf (inv : InvestigationResults) : Option PEPLevel :=
  inv.pep_classification.map (·.detected_level)

/-- Source 1 (lines 279-289): contradictions the synthesis collaborator
already declared, imported with severity `HIGH`. -/
def synthContradictions (synthesis : Option KYCSynthesisOutput) :
    List Contradiction :=
  match synthesis with
  | some syn => syn.contradictions.map (fun c =>
      { contradiction_id := "", finding_a := c.finding_a,
        finding_b := c.finding_b, agent_a := c.agent_a, agent_b := c.agent_b,
        severity := .HIGH, resolution_guidance := c.resolution })
  | none => []

/-- Rule (i) (lines 313-325): sanctions `CLEAR` co-occurring with a
`sanctions_evasion` adverse-media category. -/
def ruleSanctionsEvasion (inv : InvestigationResults) : List Contradiction :=
  if sanctionsDisposition inv = some .CLEAR ∧
     "sanctions_evasion" ∈ adverseCategories inv then
    [{ contradiction_id := "",
       finding_a := "Sanctions screening: CLEAR",
       finding_b := "Adverse media reports sanctions evasion activity",
       agent_a := sanctionsAgentName inv, agent_b := mediaAgentName inv,
       severity := .CRITICAL,
       resolution_guidance :=
         "Sanctions evasion media contradicts clear sanctions screening. Re-screen against secondary lists and consider STR filing." }]
  else []

/-- The per-match test of rule (ii) (lines 329-331): a numeric `score`
value exceeding `0.85` (a missing key reads the default `0`, which never
qualifies; a non-numeric value fails the `isinstance` check). -/
def matchScoreHigh (m : SanctionMatch) : Bool :=
  match m.score with
  | some q => decide (mkRat 85 100 < q)
  | none => false

/-- The interpolated score text of rule (ii)'s `finding_a`
(Python `f"{score:.2f}"`, abstracted as the exact rational's text). -/
def scoreText : Option Rat → String
  | some q => toString q
  | none => "0"

/-- Rule (ii) (lines 327-342): disposition `FALSE_POSITIVE` with a match
score above `0.85` — one `HIGH` contradiction for the first qualifying
match, then `break`. -/
def ruleFalsePositive (inv : InvestigationResults) : List Contradiction :=
  if sanctionsDisposition inv = some .FALSE_POSITIVE then
    match (sanctionsMatchList inv).find? matchScoreHigh with
    | some m =>
      [{ contradiction_id := "",
         finding_a := "Sanctions match scored " ++ scoreText m.score ++
           " (high similarity)",
         finding_b := "Disposition marked as FALSE_POSITIVE",
         agent_a := sanctionsAgentName inv, agent_b := sanctionsAgentName inv,
         severity := .HIGH,
         resolution_guidance :=
           "High match score contradicts FALSE_POSITIVE disposition. Residual risk remains. Verify with additional identity documents." }]
    | none => []
  else []

/-- The political-keyword filter of rule (iii) (lines 346-347). -/
def isPoliticalCategory (c : String) : Bool :=
  strContains c.toLower "political" || strContains c.toLower "government" ||
  strContains c.toLower "corruption" || strContains c.toLower "bribery"

/-- Rule (iii) (lines 344-358): `NOT_PEP` classification co-occurring
with political adverse-media categories. -/
def rulePepMedia (inv : InvestigationResults) : List Contradiction :=
  if pepLevelOf inv = some .NOT_PEP ∧ adverseCategories inv ≠ [] then
    let political := (adverseCategories inv).filter isPoliticalCategory
    if political.isEmpty then []
    else
      [{ contradiction_id := "",
         finding_a := "PEP classification: NOT_PEP",
         finding_b := "Adverse media references political activity: " ++
           String.intercalate ", " political,
         agent_a := "PEPDetection", agent_b := mediaAgentName inv,
         severity := .HIGH,
         resolution_guidance :=
           "Media references to political positions may indicate undisclosed PEP status. Re-evaluate PEP classification with additional screening." }]
  else []

/-- Rule (iv) (lines 360-370): one `MEDIUM` contradiction per
entity-verification discrepancy. -/
def ruleEntityDiscrepancies (inv : InvestigationResults) : List Contradiction :=
  match inv.entity_verification with
  | some ev => ev.discrepancies.map (fun disc =>
      { contradiction_id := "",
        finding_a := "Entity verification discrepancy: " ++ disc.take 80,
        finding_b := "Other agent findings on same entity",
        agent_a := "EntityVerification", agent_b := "Multiple",
        severity := .MEDIUM,
        resolution_guidance :=
          "Verify entity details against primary registry sources." })
  | none => []

/-- `_detect_contradictions` (`review_intelligence.py` lines 256-372). -/
def detect_contradictions (_evidence_store : List EvidenceRec)
    (synthesis : Option KYCSynthesisOutput)
    (inv : InvestigationResults) : List Contradiction :=
  numberContradictions
    (synthContradictions synthesis ++ ruleSanctionsEvasion inv ++
     ruleFalsePositive inv ++ rulePepMedia inv ++ ruleEntityDiscrepancies inv)

/-! ## Claim C8 -/

/-- C8: whenever the rules' sanctions result has disposition
`FALSE_POSITIVE` and some match entry scores above `0.85`, rule (ii) of
contradiction detection emits exactly one contradiction; it is `HIGH`
and names the sanctions source as both parties, however many further
matches qualify. -/
theorem false_positive_rule_single_high (inv : InvestigationResults)
    (h1 : sanctionsDisposition inv = some .FALSE_POSITIVE)
    (h2 : ∃ m ∈ sanctionsMatchList inv, matchScoreHigh m = true) :
    (ruleFalsePositive inv).length = 1 ∧
    ∀ c ∈ ruleFalsePositive inv, c.severity = .HIGH ∧
      c.agent_a = sanctionsAgentName inv ∧
      c.agent_b = sanctionsAgentName inv := by
  unfold ruleFalsePositive
  rw [if_pos h1]
  obtain ⟨m, hm, hsc⟩ := h2
  have hf : ((sanctionsMatchList inv).find? matchScoreHigh).isSome := by
    rw [List.find?_isSome]
    exact ⟨m, hm, hsc⟩
  obtain ⟨m', hm'⟩ := Option.isSome_iff_exists.mp hf
  rw [hm']
  refine ⟨rfl, ?_⟩
  intro c hc
  rw [List.mem_singleton] at hc
  subst hc
  exact ⟨rfl, rfl, rfl⟩

/-- Concrete investigation for the C8 witness: a `FALSE_POSITIVE`
individual sanctions result with matches scored 0.90 and 0.95. -/
def invFalsePositive : InvestigationResults :=
  { individual_sanctions := some
      { match_entries := [{ score := some (mkRat 9 10) }, { score := some (mkRat 95 100) }],
        disposition := .FALSE_POSITIVE } }

/-- Witness for C8: even with two qualifying matches, rule (ii) emits
exactly one contradiction. -/
theorem false_positive_rule_single_high_witness :
    sanctionsDisposition invFalsePositive = some .FALSE_POSITIVE ∧
    (ruleFalsePositive invFalsePositive).length = 1 :=
  ⟨by decide,
   (false_positive_rule_single_high invFalsePositive (by decide)
      ⟨{ score := some (mkRat 9 10) }, by decide, by decide⟩).1⟩
